import Mathlib

/-!
Verification of the OpenROV teleoperation node (`src/teleop/src/teleop.cpp`).

The node maps joystick samples to thruster commands: a desired body wrench is
computed from gains and axis values, solved through the fixed 3×3 allocation
matrix `A`, converted to normalized thrust fractions by per-thruster curves,
uniformly scaled out of saturation, and encoded as servo pulse widths.
Auxiliary outputs are a light-intensity accumulator and a laser toggle.

All floating-point numbers of the source are embedded as exact rationals;
decimal literals such as `14.7` and `0.045` denote the same rational values.
`double` variables become `ℚ`, `int` becomes `ℤ`, and the C library function
`round` (round half away from zero) is `cround` below.
-/

namespace OpenROV

/-- Default joystick axis index for surge input (`x_controllerAxis`, left stick up/down). -/
def x_controllerAxis : Nat := 1

/-- Default joystick axis index for heave input (`z_controllerAxis`, right stick up/down). -/
def z_controllerAxis : Nat := 4

/-- Default joystick axis index for yaw input (`yaw_controllerAxis`, left stick left/right). -/
def yaw_controllerAxis : Nat := 0

/-- Default button index for the light adjustment input (`lightsAdjButton`). -/
def lightsAdjButton : Nat := 6

/-- Default button index for the laser toggle (`laserToggleButton`). -/
def laserToggleButton : Nat := 4

/-- Default surge gain (`x_gain`). -/
def x_gain : ℚ := 4

/-- Default heave gain (`z_gain`). -/
def z_gain : ℚ := 3

/-- Default yaw gain (`yaw_gain`). -/
def yaw_gain : ℚ := 0.3

/-- Thruster displacement along the y-axis for port/stbd thrusters, set in the
constructor: `d = 0.045` metres. -/
def d : ℚ := 0.045

/-- Thruster allocation matrix, as written in `joyCallback`:
`A << 1, 0, 1, 0, 1, 0, -d, 0, d`. -/
def A : Matrix (Fin 3) (Fin 3) ℚ := !![1, 0, 1; 0, 1, 0; -d, 0, d]

/-- Closed form of the inverse of `A` (the source computes `A.inverse()`;
`Ainv_eq_inv` below proves this matrix is exactly `A⁻¹`). -/
def Ainv : Matrix (Fin 3) (Fin 3) ℚ := !![1/2, 0, -1/(2*d); 0, 1, 0; 1/2, 0, 1/(2*d)]

lemma A_mul_Ainv : A * Ainv = 1 := by
  ext i j
  fin_cases i <;> fin_cases j <;>
    simp [A, Ainv, d, Matrix.mul_apply, Fin.sum_univ_three] <;> norm_num

lemma Ainv_eq_inv : A⁻¹ = Ainv := Matrix.inv_eq_right_inv A_mul_Ainv

/-- Thrust curve for the Graupner 2308.60 port/starboard thrusters:
linear curve with max forward thrust 14.7 N and max reverse thrust 11 N
(`computePctThrustGraupner230860`). The source assigns through three
mutually exclusive `if` statements covering the sign trichotomy. -/
def computePctThrustGraupner230860 (fDes : ℚ) : ℚ :=
  if fDes > 0 then fDes / 14.7
  else if fDes < 0 then fDes / 11
  else 0

/-- Thrust curve for the Graupner 2303.57 vertical thruster: symmetric linear
curve with max thrust 14.7 N (`computePctThrustGraupner230357`). -/
def computePctThrustGraupner230357 (fDes : ℚ) : ℚ :=
  if fDes > 0 then fDes / 14.7
  else if fDes < 0 then fDes / 14.7
  else 0

/-- Saturation limiter (`limitThrusterSaturation`): returns a uniform scale
factor; `1 / max (|min|, max)` when some fraction leaves `[-1, 1]`, else `1`. -/
def limitThrusterSaturation (Ppct_d Vpct_d Spct_d : ℚ) : ℚ :=
  let mx := max (max Ppct_d Vpct_d) Spct_d
  let mn := min (min Ppct_d Vpct_d) Spct_d
  if mn < -1 ∨ mx > 1 then 1 / max |mn| mx else 1

/-- The C library function `round`: round half away from zero. -/
def cround (x : ℚ) : ℤ := if 0 ≤ x then ⌊x + 1/2⌋ else ⌈x - 1/2⌉

/-- Pulse-width encoding used for each motor in `joyCallback`:
`1500 + round(x * 500)` where `x` is the saturation-scaled fraction. -/
def encodeCmd (x : ℚ) : ℤ := 1500 + cround (x * 500)

/-- One joystick sample (`sensor_msgs::Joy`): axis values and button values,
read at the configured indices. Total functions model the in-bounds reads the
source performs without checking. -/
structure Joy where
  axes : Nat → ℚ
  buttons : Nat → ℤ

/-- Mutable fields of `OpenROVTeleop` touched by `joyCallback`: the motor
command triple `[port, vert, stbd]`, the light accumulator with its
last-published value, and the laser toggle with its guard variable. -/
structure TeleopState where
  motors : ℤ × ℤ × ℤ
  lightVal : ℚ
  oldLightVal : ℚ
  laserToggle : ℤ
  oldLaserToggle : ℤ

/-- State after the constructor: `lightVal.data = 0`, `oldLightVal = 0`,
`laserToggle.data = 0`, `oldLaserToggle = 0`; the motor message starts
zero-initialized. -/
def initState : TeleopState :=
  { motors := (0, 0, 0), lightVal := 0, oldLightVal := 0
    laserToggle := 0, oldLaserToggle := 0 }

/-- Lights section of `joyCallback`: accumulate `axes[lightsAdjButton] * -0.1`
onto `lightVal.data`, then clamp above at 1, then clamp below at 0. -/
def lightStep (axisVal L : ℚ) : ℚ :=
  let L1 := L + axisVal * (-0.1)
  let L2 := if L1 > 1 then 1 else L1
  if L2 < 0 then 0 else L2

/-- Laser section of `joyCallback` on state `(data, old)` =
`(laserToggle.data, oldLaserToggle)`: when the button is pressed and
`data == old`, flip the state, publish it, and set `old` to the new value.
Returns the new `(data, old)` and the published value, if any. -/
def laserStep (btn : ℤ) (s : ℤ × ℤ) : (ℤ × ℤ) × Option ℤ :=
  if btn ≠ 0 then
    if s.1 = s.2 then
      let newData : ℤ := if s.2 = 0 then 255 else 0
      ((newData, newData), some newData)
    else (s, none)
  else (s, none)

/-- Thruster section of `joyCallback` as a function of the sampled axis
values: wrench from gains, solve `A·T = F` through the inverse matrix, apply
the thrust curves, limit saturation, and encode the three pulse widths. -/
def thrusterCmds (joy : Joy) : ℤ × ℤ × ℤ :=
  let fx_d := x_gain * joy.axes x_controllerAxis
  let fz_d := z_gain * joy.axes z_controllerAxis
  let mz_d := yaw_gain * joy.axes yaw_controllerAxis
  let T := Ainv.mulVec ![fx_d, fz_d, mz_d]
  let Ppct_d := computePctThrustGraupner230860 (T 0)
  let Vpct_d := computePctThrustGraupner230357 (T 1)
  let Spct_d := computePctThrustGraupner230860 (T 2)
  let scaleFactor := limitThrusterSaturation Ppct_d Vpct_d Spct_d
  (encodeCmd (Ppct_d * scaleFactor), encodeCmd (Vpct_d * scaleFactor),
    encodeCmd (Spct_d * scaleFactor))

/-- The whole of `joyCallback`: store the thruster commands, run the lights
section (publishing the accumulator only when it changed), and run the laser
section. Returns the new state, the published light value (if any) and the
published laser value (if any). -/
def joyCallback (joy : Joy) (s : TeleopState) : TeleopState × Option ℚ × Option ℤ :=
  let motors := thrusterCmds joy
  let L := lightStep (joy.axes lightsAdjButton) s.lightVal
  let lightOut : Option ℚ := if s.oldLightVal ≠ L then some L else none
  let oldL := if s.oldLightVal ≠ L then L else s.oldLightVal
  let las := laserStep (joy.buttons laserToggleButton) (s.laserToggle, s.oldLaserToggle)
  ({ motors := motors, lightVal := L, oldLightVal := oldL
     laserToggle := las.1.1, oldLaserToggle := las.1.2 },
   lightOut, las.2)

/-- Fold `joyCallback` over a sequence of samples from a given state,
collecting the published laser values in order. -/
def runJoy (joys : List Joy) (s : TeleopState) : TeleopState × List ℤ :=
  match joys with
  | [] => (s, [])
  | j :: rest =>
    let step := joyCallback j s
    let next := runJoy rest step.1
    (next.1, (step.2.2.toList) ++ next.2)

/-- Light accumulator after a sequence of sampled light-adjust axis values,
starting from the constructor value `lightVal.data = 0`. -/
def lightRun (vals : List ℚ) : ℚ := vals.foldl (fun L a => lightStep a L) 0

/-- The joystick sample of spec Scenario B: forward axis (index 1) at `1.0`,
all other axes zero, no buttons pressed. -/
def scenarioB : Joy := { axes := fun i => if i = 1 then 1 else 0, buttons := fun _ => 0 }

/-- A sample in which the laser-toggle button reads pressed and everything
else is zero: one instant of a continuous press. -/
def pressJoy : Joy := { axes := fun _ => 0, buttons := fun i => if i = laserToggleButton then 1 else 0 }

lemma lightStep_mem (a L : ℚ) : 0 ≤ lightStep a L ∧ lightStep a L ≤ 1 := by
  simp only [lightStep]
  split_ifs <;> constructor <;> linarith

lemma lightFold_mem (vals : List ℚ) :
    ∀ L : ℚ, 0 ≤ L → L ≤ 1 →
      0 ≤ vals.foldl (fun L a => lightStep a L) L ∧
        vals.foldl (fun L a => lightStep a L) L ≤ 1 := by
  induction vals with
  | nil => exact fun L h0 h1 => ⟨h0, h1⟩
  | cons a rest ih =>
    intro L _ _
    exact ih (lightStep a L) (lightStep_mem a L).1 (lightStep_mem a L).2

lemma laserStep_preserves (btn : ℤ) (s : ℤ × ℤ) (h : s.1 = s.2) :
    (laserStep btn s).1.1 = (laserStep btn s).1.2 := by
  unfold laserStep
  split_ifs <;> simp [h]

lemma joyCallback_laser_eq (joy : Joy) (s : TeleopState)
    (h : s.laserToggle = s.oldLaserToggle) :
    (joyCallback joy s).1.laserToggle = (joyCallback joy s).1.oldLaserToggle := by
  simp only [joyCallback]
  exact laserStep_preserves _ _ h

lemma runJoy_laser_eq (joys : List Joy) :
    ∀ s : TeleopState, s.laserToggle = s.oldLaserToggle →
      (runJoy joys s).1.laserToggle = (runJoy joys s).1.oldLaserToggle := by
  induction joys with
  | nil => exact fun s h => h
  | cons j rest ih =>
    intro s h
    exact ih _ (joyCallback_laser_eq j s h)

/-- C1: for every body wrench `(fx, fz, mz)` and the fixed allocation matrix
`A` built from offset `d = 0.045`, the thruster force vector computed via
`A.inverse() * F` satisfies `A·T = (fx, fz, mz)` (exactly, in the rational
embedding): solving is a round-trip through the fixed matrix. -/
theorem allocation_roundtrip (fx fz mz : ℚ) :
    A.mulVec (A⁻¹.mulVec ![fx, fz, mz]) = ![fx, fz, mz] := by
  rw [Ainv_eq_inv]
  funext i
  fin_cases i <;>
    simp [A, Ainv, d, Matrix.mulVec, Matrix.dotProduct, Fin.sum_univ_three] <;> ring

/-- C4: the port/starboard thrust curve returns `f/14.7` for positive force,
`f/11` for negative force, and `0` at zero; the vertical thrust curve returns
`f/14.7` for every nonzero force and `0` at zero. -/
theorem thrustCurves_spec (f : ℚ) :
    (f > 0 → computePctThrustGraupner230860 f = f / 14.7) ∧
    (f < 0 → computePctThrustGraupner230860 f = f / 11) ∧
    computePctThrustGraupner230860 0 = 0 ∧
    (f ≠ 0 → computePctThrustGraupner230357 f = f / 14.7) ∧
    computePctThrustGraupner230357 0 = 0 := by
  refine ⟨fun h => ?_, fun h => ?_, by norm_num [computePctThrustGraupner230860],
    fun h => ?_, by norm_num [computePctThrustGraupner230357]⟩
  · rw [computePctThrustGraupner230860, if_pos h]
  · rw [computePctThrustGraupner230860, if_neg (by linarith), if_pos h]
  · rcases lt_or_gt_of_ne h with hneg | hpos
    · rw [computePctThrustGraupner230357, if_neg (by linarith), if_pos hneg]
    · rw [computePctThrustGraupner230357, if_pos hpos]

/-- Witness for C4 at concrete forces `2`, `-2` and `-3`. -/
theorem thrustCurves_spec_witness :
    computePctThrustGraupner230860 2 = 2 / 14.7 ∧
    computePctThrustGraupner230860 (-2) = (-2) / 11 ∧
    computePctThrustGraupner230357 (-3) = (-3) / 14.7 :=
  ⟨(thrustCurves_spec 2).1 (by norm_num),
    (thrustCurves_spec (-2)).2.1 (by norm_num),
    (thrustCurves_spec (-3)).2.2.2.1 (by norm_num)⟩

/-- C5: Scenario B — forward axis `1.0`, gain `4`, others zero, `d = 0.045` —
yields wrench `(4,0,0)`, thruster forces `T = (2, 0, 2)`, fractions
`(2/14.7, 0, 2/14.7)`, scale `1`, and motor command `(1568, 1500, 1568)`. -/
theorem scenarioB_pipeline :
    (x_gain * scenarioB.axes x_controllerAxis, z_gain * scenarioB.axes z_controllerAxis,
      yaw_gain * scenarioB.axes yaw_controllerAxis) = (4, 0, 0) ∧
    Ainv.mulVec ![4, 0, 0] 0 = 2 ∧ Ainv.mulVec ![4, 0, 0] 1 = 0 ∧
    Ainv.mulVec ![4, 0, 0] 2 = 2 ∧
    computePctThrustGraupner230860 2 = 2 / 14.7 ∧
    computePctThrustGraupner230357 0 = 0 ∧
    limitThrusterSaturation (2 / 14.7) 0 (2 / 14.7) = 1 ∧
    (joyCallback scenarioB initState).1.motors = (1568, 1500, 1568) := by
  refine ⟨?_, ?_, ?_, ?_, ?_, ?_, ?_, ?_⟩
  · norm_num [scenarioB, x_gain, z_gain, yaw_gain, x_controllerAxis, z_controllerAxis,
      yaw_controllerAxis]
  · norm_num [Ainv, d, Matrix.mulVec, Matrix.dotProduct, Fin.sum_univ_three]
  · norm_num [Ainv, d, Matrix.mulVec, Matrix.dotProduct, Fin.sum_univ_three]
  · norm_num [Ainv, d, Matrix.mulVec, Matrix.dotProduct, Fin.sum_univ_three]
  · norm_num [computePctThrustGraupner230860]
  · norm_num [computePctThrustGraupner230357]
  · norm_num [limitThrusterSaturation, min_def, max_def]
  · simp only [joyCallback, thrusterCmds, scenarioB, initState, x_gain, z_gain, yaw_gain,
      x_controllerAxis, z_controllerAxis, yaw_controllerAxis]
    norm_num [Ainv, d, Matrix.mulVec, Matrix.dotProduct, Fin.sum_univ_three,
      computePctThrustGraupner230860, computePctThrustGraupner230357,
      limitThrusterSaturation, min_def, max_def, encodeCmd, cround]

/-- C8: starting from the constructor value `0`, the light intensity
accumulator stays within `[0, 1]` after every sample update, for every
sequence of light-adjust axis values. -/
theorem lightRun_clamped (vals : List ℚ) : 0 ≤ lightRun vals ∧ lightRun vals ≤ 1 :=
  lightFold_mem vals 0 le_rfl (by norm_num)

/-- C10: starting from the constructor state, `laserToggle.data =
oldLaserToggle` holds after every `joyCallback` invocation: whenever the
laser state flips, the guard variable is updated to the same value in the
same step. -/
theorem laserGuard_invariant (joys : List Joy) :
    (runJoy joys initState).1.laserToggle = (runJoy joys initState).1.oldLaserToggle :=
  runJoy_laser_eq joys initState rfl

/-- C3 fails on the code: one continuous press of the laser button, sampled
twice, produces two laser emissions (`255` then `0`), not exactly one — the
guard `laserToggle.data == oldLaserToggle` is re-satisfied immediately after
each toggle, so a held button re-toggles on every sample. -/
theorem laser_held_press_double_toggle :
    (runJoy [pressJoy, pressJoy] initState).2 = [255, 0] := by
  simp [runJoy, joyCallback, laserStep, pressJoy, initState, laserToggleButton]

lemma sat_scale_mem (p v s x : ℚ) (h1 : min (min p v) s ≤ x) (h2 : x ≤ max (max p v) s) :
    -1 ≤ x * limitThrusterSaturation p v s ∧ x * limitThrusterSaturation p v s ≤ 1 := by
  simp only [limitThrusterSaturation]
  split_ifs with hsat
  · have hM : 1 < max |min (min p v) s| (max (max p v) s) := by
      rcases hsat with h | h
      · exact lt_of_lt_of_le (lt_abs.mpr (Or.inr (by linarith))) (le_max_left _ _)
      · exact lt_of_lt_of_le h (le_max_right _ _)
    have hM0 : (0 : ℚ) < max |min (min p v) s| (max (max p v) s) := by linarith
    have hlo : -(max |min (min p v) s| (max (max p v) s)) ≤ x := by
      have hna := neg_abs_le (min (min p v) s)
      have hml := le_max_left |min (min p v) s| (max (max p v) s)
      linarith
    have hhi : x ≤ max |min (min p v) s| (max (max p v) s) :=
      h2.trans (le_max_right _ _)
    constructor
    · rw [mul_one_div, le_div_iff₀ hM0]
      linarith
    · rw [mul_one_div, div_le_one hM0]
      exact hhi
  · push_neg at hsat
    rw [mul_one]
    exact ⟨by linarith [hsat.1], by linarith [hsat.2]⟩

/-- C2: multiplying each thrust fraction by the scale returned by
`limitThrusterSaturation` yields values within `[-1, 1]`; and if the three
fractions were already within `[-1, 1]`, the returned scale is `1` exactly. -/
theorem saturation_spec (p v s : ℚ) :
    (-1 ≤ p * limitThrusterSaturation p v s ∧ p * limitThrusterSaturation p v s ≤ 1) ∧
    (-1 ≤ v * limitThrusterSaturation p v s ∧ v * limitThrusterSaturation p v s ≤ 1) ∧
    (-1 ≤ s * limitThrusterSaturation p v s ∧ s * limitThrusterSaturation p v s ≤ 1) ∧
    (-1 ≤ p ∧ p ≤ 1 → -1 ≤ v ∧ v ≤ 1 → -1 ≤ s ∧ s ≤ 1 →
      limitThrusterSaturation p v s = 1) := by
  refine ⟨sat_scale_mem p v s p ((min_le_left _ _).trans (min_le_left _ _))
      ((le_max_left _ _).trans (le_max_left _ _)),
    sat_scale_mem p v s v ((min_le_left _ _).trans (min_le_right _ _))
      ((le_max_right _ _).trans (le_max_left _ _)),
    sat_scale_mem p v s s (min_le_right _ _) (le_max_right _ _),
    fun hp hv hs => ?_⟩
  simp only [limitThrusterSaturation]
  rw [if_neg]
  push_neg
  exact ⟨le_min (le_min hp.1 hv.1) hs.1, max_le (max_le hp.2 hv.2) hs.2⟩

/-- Witness for C2 at the Scenario C triple `(3/2, 1/5, -13/10)` (scale `2/3`)
and at the in-range triple `(1/2, 0, 1/2)` (scale `1`). -/
theorem saturation_spec_witness :
    limitThrusterSaturation (3/2) (1/5) (-13/10) = 2/3 ∧
    (-1 ≤ (3/2 : ℚ) * limitThrusterSaturation (3/2) (1/5) (-13/10) ∧
      (3/2 : ℚ) * limitThrusterSaturation (3/2) (1/5) (-13/10) ≤ 1) ∧
    (-1 ≤ (-13/10 : ℚ) * limitThrusterSaturation (3/2) (1/5) (-13/10) ∧
      (-13/10 : ℚ) * limitThrusterSaturation (3/2) (1/5) (-13/10) ≤ 1) ∧
    limitThrusterSaturation (1/2) 0 (1/2) = 1 :=
  ⟨by norm_num [limitThrusterSaturation, min_def, max_def, abs],
    (saturation_spec (3/2) (1/5) (-13/10)).1,
    (saturation_spec (3/2) (1/5) (-13/10)).2.2.1,
    (saturation_spec (1/2) 0 (1/2)).2.2.2 ⟨by norm_num, by norm_num⟩
      ⟨by norm_num, by norm_num⟩ ⟨by norm_num, by norm_num⟩⟩

lemma cround_bounds (y : ℚ) (h1 : -500 ≤ y) (h2 : y ≤ 500) :
    -500 ≤ cround y ∧ cround y ≤ 500 := by
  unfold cround
  split_ifs with h
  · constructor
    · exact Int.le_floor.mpr (by push_cast; linarith)
    · have hlt : ⌊y + 1/2⌋ < 501 := Int.floor_lt.mpr (by push_cast; linarith)
      omega
  · constructor
    · have hlt : (-501 : ℤ) < ⌈y - 1/2⌉ := Int.lt_ceil.mpr (by push_cast; linarith)
      omega
    · exact Int.ceil_le.mpr (by push_cast; linarith)

lemma encodeCmd_range (x : ℚ) (hx1 : -1 ≤ x) (hx2 : x ≤ 1) :
    1000 ≤ encodeCmd x ∧ encodeCmd x ≤ 2000 := by
  have h := cround_bounds (x * 500) (by linarith) (by linarith)
  unfold encodeCmd
  omega

lemma scaled_cmds_range (p v s : ℚ) :
    (1000 ≤ encodeCmd (p * limitThrusterSaturation p v s) ∧
      encodeCmd (p * limitThrusterSaturation p v s) ≤ 2000) ∧
    (1000 ≤ encodeCmd (v * limitThrusterSaturation p v s) ∧
      encodeCmd (v * limitThrusterSaturation p v s) ≤ 2000) ∧
    (1000 ≤ encodeCmd (s * limitThrusterSaturation p v s) ∧
      encodeCmd (s * limitThrusterSaturation p v s) ≤ 2000) := by
  have hp := sat_scale_mem p v s p ((min_le_left _ _).trans (min_le_left _ _))
    ((le_max_left _ _).trans (le_max_left _ _))
  have hv := sat_scale_mem p v s v ((min_le_left _ _).trans (min_le_right _ _))
    ((le_max_right _ _).trans (le_max_left _ _))
  have hs := sat_scale_mem p v s s (min_le_right _ _) (le_max_right _ _)
  exact ⟨encodeCmd_range _ hp.1 hp.2, encodeCmd_range _ hv.1 hv.2,
    encodeCmd_range _ hs.1 hs.2⟩

/-- C6: for every input sample and starting state, each of the three integer
pulse widths stored in the motor command lies in `[1000, 2000]`, with no
explicit clamp: the range follows from the saturation-scaled fractions lying
in `[-1, 1]`. -/
theorem motorCmds_in_range (joy : Joy) (s : TeleopState) :
    (1000 ≤ (joyCallback joy s).1.motors.1 ∧ (joyCallback joy s).1.motors.1 ≤ 2000) ∧
    (1000 ≤ (joyCallback joy s).1.motors.2.1 ∧ (joyCallback joy s).1.motors.2.1 ≤ 2000) ∧
    (1000 ≤ (joyCallback joy s).1.motors.2.2 ∧ (joyCallback joy s).1.motors.2.2 ≤ 2000) := by
  simp only [joyCallback, thrusterCmds]
  exact scaled_cmds_range _ _ _

lemma cround_mono {x y : ℚ} (h : x ≤ y) : cround x ≤ cround y := by
  unfold cround
  split_ifs with hx hy
  · exact Int.floor_le_floor (by linarith)
  · linarith [hx, hy, h]
  · refine le_trans (b := (0 : ℤ)) (Int.ceil_le.mpr ?_) (Int.le_floor.mpr ?_) <;>
      push_cast <;> linarith
  · exact Int.ceil_le_ceil (by linarith)

/-- C7: the command encoding `x ↦ 1500 + round(x * 500)` is monotonically
non-decreasing over `[-1, 1]` and maps `0` to exactly `1500`. -/
theorem encoder_monotone_center (x y : ℚ) (hx : -1 ≤ x) (hxy : x ≤ y) (hy : y ≤ 1) :
    encodeCmd x ≤ encodeCmd y ∧ encodeCmd 0 = 1500 := by
  constructor
  · have h := cround_mono (mul_le_mul_of_nonneg_right hxy (by norm_num : (0:ℚ) ≤ 500))
    unfold encodeCmd
    omega
  · norm_num [encodeCmd, cround]

/-- Witness for C7 at `x = 0`, `y = 1/2`. -/
theorem encoder_monotone_center_witness :
    encodeCmd 0 ≤ encodeCmd (1/2) ∧ encodeCmd 0 = 1500 :=
  encoder_monotone_center 0 (1/2) (by norm_num) (by norm_num) (by norm_num)

/-- Modelled from the spec: the error taxonomy of §7. The repository's
`joyCallback` performs unchecked indexing (teleop.cpp lines 116-118) and
contains no such type; §4.1/§7 prescribe failing with `ConfigurationError`
when a configured axis index is out of bounds for the sample. -/
inductive TeleopError where
  | ConfigurationError
deriving DecidableEq

/-- Modelled from the spec: the bounds-checked `InputMapper` of §4.1, which
the source lacks — it produces the body wrench from the gains and the
configured axis indices, or fails with `ConfigurationError` when an index is
out of bounds for the sample's axis sequence. -/
def mapInput (axes : List ℚ) : Except TeleopError (ℚ × ℚ × ℚ) :=
  match axes.get? x_controllerAxis, axes.get? z_controllerAxis, axes.get? yaw_controllerAxis with
  | some ax, some az, some ay => Except.ok (x_gain * ax, z_gain * az, yaw_gain * ay)
  | _, _, _ => Except.error TeleopError.ConfigurationError

/-- Modelled from the spec: the per-sample thruster pipeline behind the
prescribed bounds check (§7): on `ConfigurationError` the sample's output is
suppressed and the stored command is not mutated. -/
def checkedMotorUpdate (axes : List ℚ) (s : TeleopState) : TeleopState :=
  match mapInput axes with
  | Except.error _ => s
  | Except.ok w =>
    let T := Ainv.mulVec ![w.1, w.2.1, w.2.2]
    let Ppct := computePctThrustGraupner230860 (T 0)
    let Vpct := computePctThrustGraupner230357 (T 1)
    let Spct := computePctThrustGraupner230860 (T 2)
    let sc := limitThrusterSaturation Ppct Vpct Spct
    { s with motors := (encodeCmd (Ppct * sc), encodeCmd (Vpct * sc), encodeCmd (Spct * sc)) }

/-- C9: when the sample's axis sequence is shorter than some configured axis
index requires, the input-mapping step fails with `ConfigurationError` and
that sample's output is suppressed with no command mutation (total functions:
no crash). -/
theorem shortSample_suppressed (axes : List ℚ) (s : TeleopState)
    (h : axes.length ≤ x_controllerAxis ∨ axes.length ≤ z_controllerAxis ∨
      axes.length ≤ yaw_controllerAxis) :
    mapInput axes = Except.error TeleopError.ConfigurationError ∧
    checkedMotorUpdate axes s = s := by
  have hz : axes.get? z_controllerAxis = none := by
    apply List.get?_eq_none.mpr
    simp only [x_controllerAxis, z_controllerAxis, yaw_controllerAxis] at h ⊢
    omega
  have h1 : mapInput axes = Except.error TeleopError.ConfigurationError := by
    unfold mapInput
    rw [hz]
    rcases axes.get? x_controllerAxis <;> rcases axes.get? yaw_controllerAxis <;> rfl
  refine ⟨h1, ?_⟩
  unfold checkedMotorUpdate
  rw [h1]

/-- Witness for C9: the two-element axis sequence `[1, 2]` is too short for
the heave axis index `4`; the mapper fails and the state is unchanged. -/
theorem shortSample_suppressed_witness :
    ([(1:ℚ), 2].length ≤ x_controllerAxis ∨ [(1:ℚ), 2].length ≤ z_controllerAxis ∨
      [(1:ℚ), 2].length ≤ yaw_controllerAxis) ∧
    mapInput [(1:ℚ), 2] = Except.error TeleopError.ConfigurationError ∧
    checkedMotorUpdate [(1:ℚ), 2] initState = initState := by
  have h := shortSample_suppressed [(1:ℚ), 2] initState
    (Or.inr (Or.inl (by norm_num [z_controllerAxis])))
  exact ⟨Or.inr (Or.inl (by norm_num [z_controllerAxis])), h.1, h.2⟩

end OpenROV
